import Mathlib

/-
Verification of the progression-evaluator core of the memo backend
(`src/backend/routes/scores.js`): achievement unlocking, performance
rating, motivational-message selection, and level-progress computation.

Numbers are modelled as ℕ (the documented input domain is non-negative
integers) and exact rationals ℚ where the source divides.  Optional
fields (`best_time`, `rank`, `last_played`) are `Option` values; the
JavaScript comparison and truthiness semantics on possibly-`undefined`
fields are embedded explicitly:
  * `undefined <= n` and `undefined === n` are `false`;
  * `x && p` guards `p` by the truthiness of `x`, so `best_time = 0`
    (falsy) fails the guard `userStats.best_time && ...`.
-/

namespace Memo

/-- Input record of aggregate user statistics (spec §3). -/
structure UserStatistics where
  total_games : ℕ
  best_score : ℕ
  best_time : Option ℕ
  rank : Option ℕ
  last_played : Option String
  deriving DecidableEq, Repr

/-- Output value object for one unlocked achievement (spec §3). -/
structure Achievement where
  id : String
  title : String
  description : String
  icon : String
  rarity : String
  unlockedAt : Option String
  deriving DecidableEq, Repr

/-- JavaScript `r <= bound` where `r` may be `undefined`
(`undefined <= bound` is `false`). -/
def jsOptLe (r : Option ℕ) (bound : ℕ) : Bool :=
  match r with
  | none => false
  | some v => decide (v ≤ bound)

/-- JavaScript `r === v` where `r` may be `undefined`. -/
def jsOptEq (r : Option ℕ) (v : ℕ) : Bool :=
  match r with
  | none => false
  | some w => decide (w = v)

/-- JavaScript `t && t <= bound`: the guard requires `t` to be truthy
(present and non-zero) before the comparison. -/
def jsTruthyAndLe (t : Option ℕ) (bound : ℕ) : Bool :=
  match t with
  | none => false
  | some v => decide (v ≠ 0) && decide (v ≤ bound)

/-- Embedding of `getUserAchievements(username, userStats)`
(`scores.js` lines 14–166).  The `username` argument is unused by the
live code (the perfect-game query is commented out); the wrapping
`try`/`catch` is dead since the body cannot throw. -/
def getUserAchievements (username : String) (userStats : UserStatistics) :
    List Achievement :=
  (if 10 ≤ userStats.total_games then
    [⟨"ten_games", "Getting Warmed Up! 🔥", "Played 10 games", "🎯",
      "common", userStats.last_played⟩] else []) ++
  (if 50 ≤ userStats.total_games then
    [⟨"fifty_games", "Memory Enthusiast! 🤓", "Played 50 games", "🏅",
      "uncommon", userStats.last_played⟩] else []) ++
  (if 100 ≤ userStats.total_games then
    [⟨"hundred_games", "Memory Addict! 🧠", "Played 100 games", "🏆",
      "rare", userStats.last_played⟩] else []) ++
  (if 100 ≤ userStats.best_score then
    [⟨"score_100", "Century Club! 💯", "Scored 100 points in a single game",
      "💯", "common", userStats.last_played⟩] else []) ++
  (if 200 ≤ userStats.best_score then
    [⟨"score_200", "Double Century! 🎊", "Scored 200 points in a single game",
      "🌟", "uncommon", userStats.last_played⟩] else []) ++
  (if 300 ≤ userStats.best_score then
    [⟨"score_300", "Memory Master! 👑", "Scored 300 points in a single game",
      "👑", "legendary", userStats.last_played⟩] else []) ++
  (if jsTruthyAndLe userStats.best_time 60000 then
    [⟨"speed_demon", "Speed Demon! ⚡", "Completed a game in under 1 minute",
      "⚡", "rare", userStats.last_played⟩] else []) ++
  (if jsTruthyAndLe userStats.best_time 30000 then
    [⟨"lightning_fast", "Lightning Fast! 🌩️",
      "Completed a game in under 30 seconds", "🌩️", "legendary",
      userStats.last_played⟩] else []) ++
  (if jsOptLe userStats.rank 10 then
    [⟨"top_ten", "Top 10 Player! 🏆",
      "Reached the top 10 on the leaderboard", "🏆", "epic",
      userStats.last_played⟩] else []) ++
  (if jsOptLe userStats.rank 3 then
    [⟨"podium", "Podium Finisher! 🥇",
      "Reached the top 3 on the leaderboard", "🥇", "legendary",
      userStats.last_played⟩] else []) ++
  (if jsOptEq userStats.rank 1 then
    [⟨"champion", "Champion! 👑", "Reached #1 on the leaderboard", "👑",
      "legendary", userStats.last_played⟩] else [])

/-- The ids of the achievements produced by one evaluation, in order. -/
def achievementIds (username : String) (userStats : UserStatistics) :
    List String :=
  (getUserAchievements username userStats).map Achievement.id

/-- The fixed table order of all achievement ids (spec §4.1). -/
def allAchievementIds : List String :=
  ["ten_games", "fifty_games", "hundred_games", "score_100", "score_200",
   "score_300", "speed_demon", "lightning_fast", "top_ten", "podium",
   "champion"]

/-- Output of the performance rating (spec §3): a rating name with its
fixed emoji and color. -/
structure PerformanceRating where
  rating : String
  emoji : String
  color : String
  deriving DecidableEq, Repr

/-- One `(excellent, good, average)` threshold triple. -/
structure RatingThresholds where
  excellent : ℕ
  good : ℕ
  average : ℕ
  deriving DecidableEq, Repr

/-- The property names a plain JavaScript object literal inherits from
`Object.prototype`.  Bracket lookup `thresholds[difficulty]` on one of
these names finds a truthy inherited function or object (for
`__proto__`, the prototype object itself), not `undefined`. -/
def objectPrototypeProps : List String :=
  ["constructor", "hasOwnProperty", "isPrototypeOf", "propertyIsEnumerable",
   "toLocaleString", "toString", "valueOf", "__proto__", "__defineGetter__",
   "__defineSetter__", "__lookupGetter__", "__lookupSetter__"]

/-- Outcome of the JavaScript property read `thresholds[difficulty]`:
an own key of the table literal yields its threshold triple, a name
inherited from `Object.prototype` yields a truthy object that has no
threshold fields, and any other name yields `undefined` (falsy). -/
inductive ThresholdsLookup where
  | found (t : RatingThresholds)
  | protoMember
  | missing
  deriving DecidableEq, Repr

/-- JavaScript field read `x.excellent` on a lookup result: `undefined`
unless the lookup found a threshold triple. -/
def ThresholdsLookup.excellent? : ThresholdsLookup → Option ℕ
  | .found t => some t.excellent
  | _ => none

/-- JavaScript field read `x.good` on a lookup result. -/
def ThresholdsLookup.good? : ThresholdsLookup → Option ℕ
  | .found t => some t.good
  | _ => none

/-- JavaScript field read `x.average` on a lookup result. -/
def ThresholdsLookup.average? : ThresholdsLookup → Option ℕ
  | .found t => some t.average
  | _ => none

/-- The `thresholds` table object of `getGamePerformance`
(`scores.js` lines 183–188), read with JavaScript bracket-lookup
semantics: own keys first, then the prototype chain, else `undefined`. -/
def thresholdsTable (difficulty : String) : ThresholdsLookup :=
  if difficulty = "easy" then .found ⟨180, 140, 100⟩
  else if difficulty = "medium" then .found ⟨220, 180, 140⟩
  else if difficulty = "hard" then .found ⟨280, 220, 180⟩
  else if difficulty = "expert" then .found ⟨350, 280, 220⟩
  else if difficulty ∈ objectPrototypeProps then .protoMember
  else .missing

/-- Embedding of `getGamePerformance(score, difficulty)`
(`scores.js` lines 182–201).  `thresholds[difficulty] || thresholds.easy`
replaces only a falsy lookup result (`undefined`) by the easy triple; a
truthy inherited `Object.prototype` member is kept, and each comparison
`score >= threshold.<field>` against its `undefined` fields is false
(`jsOptLe`). -/
def getGamePerformance (score : ℕ) (difficulty : String) : PerformanceRating :=
  let threshold := match thresholdsTable difficulty with
    | .missing => ThresholdsLookup.found ⟨180, 140, 100⟩
    | r => r
  if jsOptLe threshold.excellent? score then ⟨"Excellent", "🌟", "#FFD700"⟩
  else if jsOptLe threshold.good? score then ⟨"Good", "👍", "#90EE90"⟩
  else if jsOptLe threshold.average? score then ⟨"Average", "😊", "#87CEEB"⟩
  else ⟨"Keep Trying", "💪", "#FFA07A"⟩

/-- The fixed message pools of `getMotivationalMessage`
(`scores.js` lines 207–233), keyed by level name. -/
def messagesFor (level : String) : List String :=
  if level = "rookie" then
    ["🌱 Every expert was once a beginner! Keep playing!",
     "🎮 You\u0027re just getting started - the fun is ahead!",
     "🚀 Great start! Your memory skills are developing!"]
  else if level = "beginner" then
    ["🎯 You\u0027re making progress! Keep up the good work!",
     "💪 Your memory is getting stronger with each game!",
     "⭐ Nice improvement! You\u0027re on the right track!"]
  else if level = "intermediate" then
    ["🔥 You\u0027re getting good at this! Keep the momentum!",
     "🎪 Impressive skills! You\u0027re becoming a memory pro!",
     "🌟 Excellent progress! You\u0027re in the intermediate league!"]
  else if level = "advanced" then
    ["🏆 Outstanding performance! You\u0027re almost a master!",
     "💎 Your memory skills are truly impressive!",
     "🚀 You\u0027re reaching expert levels! Keep pushing!"]
  else if level = "expert" then
    ["🧠 Memory Master level achieved! Incredible!",
     "👑 You\u0027re among the elite players! Amazing work!",
     "🌟 Legendary performance! You\u0027re inspiring others!"]
  else []

/-- The level-selection `if`/`else` chain of `getMotivationalMessage`
(`scores.js` lines 235–239). -/
def messageLevel (best_score : ℕ) : String :=
  if 300 ≤ best_score then "expert"
  else if 200 ≤ best_score then "advanced"
  else if 150 ≤ best_score then "intermediate"
  else if 100 ≤ best_score then "beginner"
  else "rookie"

/-- Embedding of `getMotivationalMessage(userStats)`
(`scores.js` lines 206–243).  The outcome of `Math.random()` is passed
in as `random : ℚ` (the caller guarantees `0 ≤ random < 1`); the index
`Math.floor(random * levelMessages.length)` is `⌊random * length⌋`, and
out-of-bounds JavaScript indexing (`undefined`) is modelled by the `getD`
default. -/
def getMotivationalMessage (userStats : UserStatistics) (random : ℚ) :
    String :=
  let levelMessages := messagesFor (messageLevel userStats.best_score)
  levelMessages.getD (Int.toNat ⌊random * levelMessages.length⌋) ""

/-- Either the terminal max-level marker or a progress tuple (spec §3). -/
inductive ProgressToNextLevel where
  | maxLevel (message : String)
  | progress (currentLevel : ℕ) (nextLevel : ℕ) (progressPct : ℚ)
      (pointsNeeded : ℕ)
  deriving DecidableEq, Repr

/-- JavaScript `levels[i] || 0` with a possibly negative index `i`:
out-of-bounds gives `undefined`, and `undefined || 0` (as well as a falsy
element `0`) gives `0`. -/
def jsIndexOr0 (l : List ℕ) (i : ℤ) : ℕ :=
  if i < 0 then 0 else l.getD i.toNat 0

/-- Embedding of `getProgressToNextLevel(bestScore)`
(`scores.js` lines 321–339). -/
def getProgressToNextLevel (bestScore : ℕ) : ProgressToNextLevel :=
  let levels : List ℕ := [100, 150, 200, 250, 300]
  match levels.find? (fun level => bestScore < level) with
  | none => .maxLevel "You\u0027ve reached the highest level! 👑"
  | some nextLevel =>
      let previousLevel :=
        jsIndexOr0 levels ((levels.indexOf nextLevel : ℤ) - 1)
      let progress : ℚ :=
        (((bestScore : ℚ) - previousLevel) / ((nextLevel : ℚ) - previousLevel))
          * 100
      .progress previousLevel nextLevel (max 0 (min 100 progress))
        (nextLevel - bestScore)

/-- Spec-side threshold table of §4.2, with the documented fallback of
any unrecognized difficulty to the easy triple. -/
def specThresholdTriple (difficulty : String) : RatingThresholds :=
  if difficulty = "easy" then ⟨180, 140, 100⟩
  else if difficulty = "medium" then ⟨220, 180, 140⟩
  else if difficulty = "hard" then ⟨280, 220, 180⟩
  else if difficulty = "expert" then ⟨350, 280, 220⟩
  else ⟨180, 140, 100⟩

/-- Spec-side rating (§4.2): descending comparison against the triple,
excellent first, then good, then average, else Keep Trying. -/
def specRating (score : ℕ) (difficulty : String) : String :=
  let t := specThresholdTriple difficulty
  if t.excellent ≤ score then "Excellent"
  else if t.good ≤ score then "Good"
  else if t.average ≤ score then "Average"
  else "Keep Trying"

/-- The position of a recognized difficulty in the order
easy < medium < hard < expert. -/
def difficultyOrder (difficulty : String) : Option ℕ :=
  if difficulty = "easy" then some 0
  else if difficulty = "medium" then some 1
  else if difficulty = "hard" then some 2
  else if difficulty = "expert" then some 3
  else none

/-- Ratings ordered Keep Trying < Average < Good < Excellent. -/
def ratingValue (rating : String) : ℕ :=
  if rating = "Excellent" then 3
  else if rating = "Good" then 2
  else if rating = "Average" then 1
  else 0

/-- The level/progress contract of spec §4.4, written from the spec text:
take the smallest element of `levels` strictly greater than `best_score`
(none ⇒ the max-level marker), `previous` the preceding level or `0` at
the first element, progress `clamp(((best_score - previous) / (next -
previous)) * 100, 0, 100)`, and `points_needed = next - best_score`. -/
def specComputeProgress (best_score : ℕ) : ProgressToNextLevel :=
  let levels : List ℕ := [100, 150, 200, 250, 300]
  match (levels.filter (fun level => best_score < level)).min? with
  | none => .maxLevel "You\u0027ve reached the highest level! 👑"
  | some next =>
      let i := levels.indexOf next
      let previous := if i = 0 then 0 else levels.getD (i - 1) 0
      .progress previous next
        (max 0 (min 100
          ((((best_score : ℚ) - previous) / ((next : ℚ) - previous)) * 100)))
        (next - best_score)

/-- Spec-side tier pools (§4.3): the pool for the tier determined by
best_score with boundaries rookie (<100), beginner (100–149),
intermediate (150–199), advanced (200–299), expert (≥300). -/
def specTierPool (best_score : ℕ) : List String :=
  if best_score < 100 then messagesFor "rookie"
  else if best_score ≤ 149 then messagesFor "beginner"
  else if best_score ≤ 199 then messagesFor "intermediate"
  else if best_score ≤ 299 then messagesFor "advanced"
  else messagesFor "expert"

theorem map_ite_singleton {α β : Type} (f : α → β) (c : Prop) [Decidable c]
    (a : α) :
    List.map f (if c then [a] else []) = if c then [f a] else [] := by
  split <;> rfl

theorem mem_ite_singleton {α : Type} {x a : α} {c : Prop} [Decidable c] :
    x ∈ (if c then [a] else []) ↔ c ∧ x = a := by
  split <;> simp_all

theorem ite_singleton_sublist {α : Type} (c : Prop) [Decidable c] (a : α) :
    List.Sublist (if c then [a] else []) [a] := by
  split <;> simp

/-- The id list written as an append of guarded singletons. -/
theorem achievementIds_eq (username : String) (s : UserStatistics) :
    achievementIds username s =
      (if 10 ≤ s.total_games then ["ten_games"] else []) ++
      (if 50 ≤ s.total_games then ["fifty_games"] else []) ++
      (if 100 ≤ s.total_games then ["hundred_games"] else []) ++
      (if 100 ≤ s.best_score then ["score_100"] else []) ++
      (if 200 ≤ s.best_score then ["score_200"] else []) ++
      (if 300 ≤ s.best_score then ["score_300"] else []) ++
      (if jsTruthyAndLe s.best_time 60000 then ["speed_demon"] else []) ++
      (if jsTruthyAndLe s.best_time 30000 then ["lightning_fast"] else []) ++
      (if jsOptLe s.rank 10 then ["top_ten"] else []) ++
      (if jsOptLe s.rank 3 then ["podium"] else []) ++
      (if jsOptEq s.rank 1 then ["champion"] else []) := by
  simp only [achievementIds, getUserAchievements, List.map_append,
    map_ite_singleton]

/-- On an own key of the table the rating is the descending comparison
against that key's triple. -/
theorem getGamePerformance_of_found (score : ℕ) (d : String)
    (t : RatingThresholds) (h : thresholdsTable d = .found t) :
    (getGamePerformance score d).rating =
      (if t.excellent ≤ score then "Excellent"
      else if t.good ≤ score then "Good"
      else if t.average ≤ score then "Average"
      else "Keep Trying") := by
  unfold getGamePerformance
  rw [h]
  dsimp only [ThresholdsLookup.excellent?, ThresholdsLookup.good?,
    ThresholdsLookup.average?]
  simp only [jsOptLe, decide_eq_true_eq]
  split_ifs <;> rfl

/-- A falsy (`undefined`) lookup falls back to the easy evaluation. -/
theorem getGamePerformance_of_missing (score : ℕ) (d : String)
    (h : thresholdsTable d = .missing) :
    getGamePerformance score d = getGamePerformance score "easy" := by
  unfold getGamePerformance
  rw [h]
  rfl

/-- A truthy inherited `Object.prototype` member defeats the fallback;
all three comparisons against its `undefined` fields are false, so the
rating is Keep Trying at every score. -/
theorem getGamePerformance_of_proto (score : ℕ) (d : String)
    (h : thresholdsTable d = .protoMember) :
    getGamePerformance score d = ⟨"Keep Trying", "💪", "#FFA07A"⟩ := by
  unfold getGamePerformance
  rw [h]
  rfl

/-- The spec triple of an own key is that key's triple. -/
theorem specThresholdTriple_of_found (d : String) (t : RatingThresholds)
    (h : thresholdsTable d = .found t) : specThresholdTriple d = t := by
  unfold thresholdsTable at h
  unfold specThresholdTriple
  split_ifs at h <;> simp_all

/-- The spec triple of a name absent from table and prototype chain is
the easy triple. -/
theorem specThresholdTriple_of_missing (d : String)
    (h : thresholdsTable d = .missing) :
    specThresholdTriple d = ⟨180, 140, 100⟩ := by
  unfold thresholdsTable at h
  unfold specThresholdTriple
  split_ifs at h <;> simp_all

/-- Raising every threshold can only lower the descending-comparison
rating. -/
theorem ratingValue_anti (score : ℕ) (t1 t2 : RatingThresholds)
    (he : t2.excellent ≤ t1.excellent) (hg : t2.good ≤ t1.good)
    (ha : t2.average ≤ t1.average) :
    ratingValue (if t1.excellent ≤ score then "Excellent"
      else if t1.good ≤ score then "Good"
      else if t1.average ≤ score then "Average"
      else "Keep Trying") ≤
    ratingValue (if t2.excellent ≤ score then "Excellent"
      else if t2.good ≤ score then "Good"
      else if t2.average ≤ score then "Average"
      else "Keep Trying") := by
  split_ifs <;> simp [ratingValue] <;> omega

theorem getProgress_of_lt_100 (bs : ℕ) (h : bs < 100) :
    getProgressToNextLevel bs =
      .progress 0 100 (max 0 (min 100 ((bs : ℚ) / 100 * 100))) (100 - bs) := by
  unfold getProgressToNextLevel
  dsimp only
  rw [List.find?_cons_of_pos _ (by simpa using h)]
  norm_num [jsIndexOr0]

theorem getProgress_of_100_150 (bs : ℕ) (h1 : 100 ≤ bs) (h2 : bs < 150) :
    getProgressToNextLevel bs =
      .progress 100 150 (max 0 (min 100 (((bs : ℚ) - 100) / 50 * 100)))
        (150 - bs) := by
  unfold getProgressToNextLevel
  dsimp only
  rw [List.find?_cons_of_neg _ (by simpa using h1),
    List.find?_cons_of_pos _ (by simpa using h2)]
  simp [jsIndexOr0, List.indexOf, List.findIdx, List.findIdx.go]
  norm_num

theorem getProgress_of_150_200 (bs : ℕ) (h1 : 150 ≤ bs) (h2 : bs < 200) :
    getProgressToNextLevel bs =
      .progress 150 200 (max 0 (min 100 (((bs : ℚ) - 150) / 50 * 100)))
        (200 - bs) := by
  unfold getProgressToNextLevel
  dsimp only
  rw [List.find?_cons_of_neg _ (by simp; omega),
    List.find?_cons_of_neg _ (by simpa using h1),
    List.find?_cons_of_pos _ (by simpa using h2)]
  simp [jsIndexOr0, List.indexOf, List.findIdx, List.findIdx.go]
  norm_num

theorem getProgress_of_200_250 (bs : ℕ) (h1 : 200 ≤ bs) (h2 : bs < 250) :
    getProgressToNextLevel bs =
      .progress 200 250 (max 0 (min 100 (((bs : ℚ) - 200) / 50 * 100)))
        (250 - bs) := by
  unfold getProgressToNextLevel
  dsimp only
  rw [List.find?_cons_of_neg _ (by simp; omega),
    List.find?_cons_of_neg _ (by simp; omega),
    List.find?_cons_of_neg _ (by simpa using h1),
    List.find?_cons_of_pos _ (by simpa using h2)]
  simp [jsIndexOr0, List.indexOf, List.findIdx, List.findIdx.go]
  norm_num

theorem getProgress_of_250_300 (bs : ℕ) (h1 : 250 ≤ bs) (h2 : bs < 300) :
    getProgressToNextLevel bs =
      .progress 250 300 (max 0 (min 100 (((bs : ℚ) - 250) / 50 * 100)))
        (300 - bs) := by
  unfold getProgressToNextLevel
  dsimp only
  rw [List.find?_cons_of_neg _ (by simp; omega),
    List.find?_cons_of_neg _ (by simp; omega),
    List.find?_cons_of_neg _ (by simp; omega),
    List.find?_cons_of_neg _ (by simpa using h1),
    List.find?_cons_of_pos _ (by simpa using h2)]
  simp [jsIndexOr0, List.indexOf, List.findIdx, List.findIdx.go]
  norm_num

theorem getProgress_of_300_le (bs : ℕ) (h : 300 ≤ bs) :
    getProgressToNextLevel bs =
      .maxLevel "You\u0027ve reached the highest level! 👑" := by
  unfold getProgressToNextLevel
  dsimp only
  rw [List.find?_cons_of_neg _ (by simp; omega),
    List.find?_cons_of_neg _ (by simp; omega),
    List.find?_cons_of_neg _ (by simp; omega),
    List.find?_cons_of_neg _ (by simp; omega),
    List.find?_cons_of_neg _ (by simpa using h)]
  rfl

theorem specProgress_of_lt_100 (bs : ℕ) (h : bs < 100) :
    specComputeProgress bs =
      .progress 0 100 (max 0 (min 100 ((bs : ℚ) / 100 * 100))) (100 - bs) := by
  unfold specComputeProgress
  dsimp only
  rw [List.filter_cons_of_pos (by simpa using h),
    List.filter_cons_of_pos (by simp; omega),
    List.filter_cons_of_pos (by simp; omega),
    List.filter_cons_of_pos (by simp; omega),
    List.filter_cons_of_pos (by simp; omega)]
  norm_num

theorem specProgress_of_100_150 (bs : ℕ) (h1 : 100 ≤ bs) (h2 : bs < 150) :
    specComputeProgress bs =
      .progress 100 150 (max 0 (min 100 (((bs : ℚ) - 100) / 50 * 100)))
        (150 - bs) := by
  unfold specComputeProgress
  dsimp only
  rw [List.filter_cons_of_neg (by simpa using h1),
    List.filter_cons_of_pos (by simpa using h2),
    List.filter_cons_of_pos (by simp; omega),
    List.filter_cons_of_pos (by simp; omega),
    List.filter_cons_of_pos (by simp; omega)]
  simp [List.indexOf, List.findIdx, List.findIdx.go]
  norm_num

theorem specProgress_of_150_200 (bs : ℕ) (h1 : 150 ≤ bs) (h2 : bs < 200) :
    specComputeProgress bs =
      .progress 150 200 (max 0 (min 100 (((bs : ℚ) - 150) / 50 * 100)))
        (200 - bs) := by
  unfold specComputeProgress
  dsimp only
  rw [List.filter_cons_of_neg (by simp; omega),
    List.filter_cons_of_neg (by simpa using h1),
    List.filter_cons_of_pos (by simpa using h2),
    List.filter_cons_of_pos (by simp; omega),
    List.filter_cons_of_pos (by simp; omega)]
  simp [List.indexOf, List.findIdx, List.findIdx.go]
  norm_num

theorem specProgress_of_200_250 (bs : ℕ) (h1 : 200 ≤ bs) (h2 : bs < 250) :
    specComputeProgress bs =
      .progress 200 250 (max 0 (min 100 (((bs : ℚ) - 200) / 50 * 100)))
        (250 - bs) := by
  unfold specComputeProgress
  dsimp only
  rw [List.filter_cons_of_neg (by simp; omega),
    List.filter_cons_of_neg (by simp; omega),
    List.filter_cons_of_neg (by simpa using h1),
    List.filter_cons_of_pos (by simpa using h2),
    List.filter_cons_of_pos (by simp; omega)]
  simp [List.indexOf, List.findIdx, List.findIdx.go]
  norm_num

theorem specProgress_of_250_300 (bs : ℕ) (h1 : 250 ≤ bs) (h2 : bs < 300) :
    specComputeProgress bs =
      .progress 250 300 (max 0 (min 100 (((bs : ℚ) - 250) / 50 * 100)))
        (300 - bs) := by
  unfold specComputeProgress
  dsimp only
  rw [List.filter_cons_of_neg (by simp; omega),
    List.filter_cons_of_neg (by simp; omega),
    List.filter_cons_of_neg (by simp; omega),
    List.filter_cons_of_neg (by simpa using h1),
    List.filter_cons_of_pos (by simpa using h2)]
  simp [List.indexOf, List.findIdx, List.findIdx.go]
  norm_num

theorem specProgress_of_300_le (bs : ℕ) (h : 300 ≤ bs) :
    specComputeProgress bs =
      .maxLevel "You\u0027ve reached the highest level! 👑" := by
  unfold specComputeProgress
  dsimp only
  rw [List.filter_cons_of_neg (by simp; omega),
    List.filter_cons_of_neg (by simp; omega),
    List.filter_cons_of_neg (by simp; omega),
    List.filter_cons_of_neg (by simp; omega),
    List.filter_cons_of_neg (by simpa using h)]
  rfl

/-- The pool the source selects is the pool of the spec tier. -/
theorem messagesFor_messageLevel (bs : ℕ) :
    messagesFor (messageLevel bs) = specTierPool bs := by
  unfold messageLevel specTierPool
  split_ifs <;> first | rfl | (exfalso; omega)

theorem specTierPool_length (bs : ℕ) : (specTierPool bs).length = 3 := by
  unfold specTierPool
  split_ifs <;> rfl

theorem getD_mem {α : Type} (l : List α) (n : ℕ) (d : α) (h : n < l.length) :
    l.getD n d ∈ l := by
  rw [List.getD_eq_getElem?_getD, List.getElem?_eq_getElem h]
  simp

theorem floor_mul_three_lt (q : ℚ) (h0 : 0 ≤ q) (h1 : q < 1) :
    Int.toNat ⌊q * 3⌋ < 3 := by
  have ha : (0 : ℚ) ≤ q * 3 := by positivity
  have hb : q * 3 < 3 := by linarith
  have hc : (0 : ℤ) ≤ ⌊q * 3⌋ := Int.floor_nonneg.mpr ha
  have hd : ⌊q * 3⌋ < 3 := Int.floor_lt.mpr (by exact_mod_cast hb)
  omega

/-- Claim C1: the rank rows of the threshold table are implemented
exactly: `top_ten` is emitted iff the rank is present and at most 10,
`podium` iff present and at most 3, `champion` iff present and equal
to 1; an absent rank yields none of the three. -/
theorem claim_C1 (username : String) (s : UserStatistics) :
    ("top_ten" ∈ achievementIds username s ↔ ∃ r, s.rank = some r ∧ r ≤ 10) ∧
    ("podium" ∈ achievementIds username s ↔ ∃ r, s.rank = some r ∧ r ≤ 3) ∧
    ("champion" ∈ achievementIds username s ↔ s.rank = some 1) := by
  rw [achievementIds_eq]
  rcases s.rank with _ | r <;>
    simp [mem_ite_singleton, jsOptLe, jsOptEq]

/-- Claim C2, counterexample: contrary to the claim, a present
`best_time` of 0 milliseconds (which is at most 30000) yields neither
speed achievement, because the source guards the comparison with the
truthiness of `best_time` and `0` is falsy. -/
theorem claim_C2_counterexample :
    (⟨0, 0, some 0, none, none⟩ : UserStatistics).best_time = some 0 ∧
    (0 : ℕ) ≤ 30000 ∧
    "speed_demon" ∉ achievementIds "user" ⟨0, 0, some 0, none, none⟩ ∧
    "lightning_fast" ∉ achievementIds "user" ⟨0, 0, some 0, none, none⟩ := by
  decide

/-- Claim C2 as amended: `speed_demon` is emitted iff `best_time` is
present, non-zero and at most 60000, and `lightning_fast` iff present,
non-zero and at most 30000 (an absent best_time yields neither). -/
theorem claim_C2_amended (username : String) (s : UserStatistics) :
    ("speed_demon" ∈ achievementIds username s ↔
      ∃ t, s.best_time = some t ∧ 0 < t ∧ t ≤ 60000) ∧
    ("lightning_fast" ∈ achievementIds username s ↔
      ∃ t, s.best_time = some t ∧ 0 < t ∧ t ≤ 30000) := by
  rw [achievementIds_eq]
  rcases s.best_time with _ | t <;>
    simp [mem_ite_singleton, jsTruthyAndLe] <;> omega

/-- Claim C3: threshold checks are cumulative and independent — below
10 games `ten_games` is absent; at 100 games all three game-count
achievements are present; at best_score 300 all three score
achievements are present. -/
theorem claim_C3 (username : String) (s : UserStatistics) :
    (s.total_games < 10 → "ten_games" ∉ achievementIds username s) ∧
    (100 ≤ s.total_games →
      "ten_games" ∈ achievementIds username s ∧
      "fifty_games" ∈ achievementIds username s ∧
      "hundred_games" ∈ achievementIds username s) ∧
    (300 ≤ s.best_score →
      "score_100" ∈ achievementIds username s ∧
      "score_200" ∈ achievementIds username s ∧
      "score_300" ∈ achievementIds username s) := by
  refine ⟨fun h => ?_, fun h => ?_, fun h => ?_⟩ <;>
    simp [achievementIds_eq, mem_ite_singleton] <;> omega

theorem claim_C3_witness :
    "ten_games" ∉ achievementIds "user" ⟨9, 0, none, none, none⟩ ∧
    "hundred_games" ∈ achievementIds "user" ⟨100, 300, none, none, none⟩ ∧
    "score_300" ∈ achievementIds "user" ⟨100, 300, none, none, none⟩ :=
  ⟨(claim_C3 "user" ⟨9, 0, none, none, none⟩).1 (by decide),
   ((claim_C3 "user" ⟨100, 300, none, none, none⟩).2.1 (by decide)).2.2,
   ((claim_C3 "user" ⟨100, 300, none, none, none⟩).2.2 (by decide)).2.2⟩

/-- Claim C4, counterexample: `"constructor"` is not one of the four
recognized difficulties, yet the program does not fall back to the easy
triple — at score 200 the easy triple rates Excellent while the
program, having looked up the truthy inherited `constructor` property
whose threshold fields are `undefined`, returns Keep Trying. -/
theorem claim_C4_counterexample :
    (getGamePerformance 200 "constructor").rating = "Keep Trying" ∧
    (getGamePerformance 200 "easy").rating = "Excellent" ∧
    "constructor" ≠ "easy" ∧ "constructor" ≠ "medium" ∧
    "constructor" ≠ "hard" ∧ "constructor" ≠ "expert" := by
  decide

/-- Claim C4 as amended: `getGamePerformance` agrees with the spec
table (easy 180/140/100, medium 220/180/140, hard 280/220/180, expert
350/280/220) compared descending, and an unrecognized difficulty falls
back to the easy triple unless it names an inherited
`Object.prototype` property, in which case the truthy lookup defeats
the `||` fallback and the rating is Keep Trying at every score; the
three quoted examples hold. -/
theorem claim_C4_amended :
    (∀ (score : ℕ) (difficulty : String),
      thresholdsTable difficulty ≠ ThresholdsLookup.protoMember →
      (getGamePerformance score difficulty).rating =
        specRating score difficulty) ∧
    (∀ (score : ℕ) (difficulty : String),
      thresholdsTable difficulty = ThresholdsLookup.protoMember →
      (getGamePerformance score difficulty).rating = "Keep Trying") ∧
    (getGamePerformance 180 "easy").rating = "Excellent" ∧
    (getGamePerformance 179 "easy").rating = "Good" ∧
    (getGamePerformance 50 "unknown-difficulty").rating = "Keep Trying" := by
  refine ⟨fun score d hne => ?_, fun score d hp => ?_,
    by decide, by decide, by decide⟩
  · rcases e : thresholdsTable d with t | _ | _
    · rw [getGamePerformance_of_found score d t e]
      unfold specRating
      rw [specThresholdTriple_of_found d t e]
    · exact absurd e hne
    · rw [getGamePerformance_of_missing score d e,
        getGamePerformance_of_found score "easy" ⟨180, 140, 100⟩ rfl]
      unfold specRating
      rw [specThresholdTriple_of_missing d e]
  · rw [getGamePerformance_of_proto score d hp]

theorem claim_C4_witness :
    (thresholdsTable "medium" ≠ ThresholdsLookup.protoMember ∧
      (getGamePerformance 200 "medium").rating = specRating 200 "medium") ∧
    (thresholdsTable "toString" = ThresholdsLookup.protoMember ∧
      (getGamePerformance 200 "toString").rating = "Keep Trying") :=
  ⟨⟨by decide, claim_C4_amended.1 200 "medium" (by decide)⟩,
   ⟨by decide, claim_C4_amended.2.1 200 "toString" (by decide)⟩⟩

/-- Claim C5: `getProgressToNextLevel` refines the spec contract of
§4.4 (smallest level strictly above `best_score`, preceding level or 0,
clamped linear interpolation, points needed), with the three quoted
example values. -/
theorem claim_C5 :
    (∀ bs : ℕ, getProgressToNextLevel bs = specComputeProgress bs) ∧
    getProgressToNextLevel 300 =
      .maxLevel "You\u0027ve reached the highest level! 👑" ∧
    getProgressToNextLevel 125 = .progress 100 150 50 25 ∧
    getProgressToNextLevel 0 = .progress 0 100 0 100 := by
  refine ⟨fun bs => ?_, ?_, ?_, ?_⟩
  · by_cases c1 : bs < 100
    · rw [getProgress_of_lt_100 bs c1, specProgress_of_lt_100 bs c1]
    · by_cases c2 : bs < 150
      · rw [getProgress_of_100_150 bs (by omega) c2,
          specProgress_of_100_150 bs (by omega) c2]
      · by_cases c3 : bs < 200
        · rw [getProgress_of_150_200 bs (by omega) c3,
            specProgress_of_150_200 bs (by omega) c3]
        · by_cases c4 : bs < 250
          · rw [getProgress_of_200_250 bs (by omega) c4,
              specProgress_of_200_250 bs (by omega) c4]
          · by_cases c5 : bs < 300
            · rw [getProgress_of_250_300 bs (by omega) c5,
                specProgress_of_250_300 bs (by omega) c5]
            · rw [getProgress_of_300_le bs (by omega),
                specProgress_of_300_le bs (by omega)]
  · rw [getProgress_of_300_le 300 (by norm_num)]
  · rw [getProgress_of_100_150 125 (by norm_num) (by norm_num)]
    norm_num
  · rw [getProgress_of_lt_100 0 (by norm_num)]
    norm_num

/-- Claim C6: `getUserAchievements` is deterministic — two calls with
identical `UserStatistics` input produce identical output sequences
(the result does not even depend on the username argument). -/
theorem claim_C6 (u1 u2 : String) (s1 s2 : UserStatistics) (h : s1 = s2) :
    getUserAchievements u1 s1 = getUserAchievements u2 s2 := by
  subst h
  rfl

theorem claim_C6_witness :
    getUserAchievements "alice" ⟨12, 150, some 45000, some 2, some "t"⟩ =
    getUserAchievements "bob" ⟨12, 150, some 45000, some 2, some "t"⟩ :=
  claim_C6 "alice" "bob" _ _ rfl

/-- Claim C7: for every input and every outcome of the random selector,
`getMotivationalMessage` returns one of the exactly 3 fixed strings of
the pool for the tier determined by `best_score` (boundaries rookie
<100, beginner 100–149, intermediate 150–199, advanced 200–299, expert
≥300). -/
theorem claim_C7 (s : UserStatistics) (q : ℚ) (h0 : 0 ≤ q) (h1 : q < 1) :
    (specTierPool s.best_score).length = 3 ∧
    getMotivationalMessage s q ∈ specTierPool s.best_score := by
  refine ⟨specTierPool_length _, ?_⟩
  unfold getMotivationalMessage
  dsimp only
  rw [messagesFor_messageLevel]
  apply getD_mem
  rw [specTierPool_length]
  have := floor_mul_three_lt q h0 h1
  norm_num
  convert this using 3

theorem claim_C7_witness :
    (specTierPool (0 : ℕ)).length = 3 ∧
    getMotivationalMessage ⟨0, 0, none, none, none⟩ 0 ∈ specTierPool 0 :=
  claim_C7 ⟨0, 0, none, none, none⟩ 0 (by norm_num) (by norm_num)

/-- Claim C8: the emitted id sequence is a subsequence of the fixed
table order (no additional sorting), and consequently each id appears
at most once per evaluation. -/
theorem claim_C8 (username : String) (s : UserStatistics) :
    List.Sublist (achievementIds username s) allAchievementIds ∧
    (achievementIds username s).Nodup := by
  have hsub : List.Sublist (achievementIds username s) allAchievementIds := by
    have hsplit : (["ten_games"] ++ ["fifty_games"] ++ ["hundred_games"] ++
        ["score_100"] ++ ["score_200"] ++ ["score_300"] ++ ["speed_demon"] ++
        ["lightning_fast"] ++ ["top_ten"] ++ ["podium"] ++ ["champion"] :
        List String) = allAchievementIds := rfl
    rw [achievementIds_eq, ← hsplit]
    exact ((((((((((ite_singleton_sublist _ _).append
      (ite_singleton_sublist _ _)).append
      (ite_singleton_sublist _ _)).append
      (ite_singleton_sublist _ _)).append
      (ite_singleton_sublist _ _)).append
      (ite_singleton_sublist _ _)).append
      (ite_singleton_sublist _ _)).append
      (ite_singleton_sublist _ _)).append
      (ite_singleton_sublist _ _)).append
      (ite_singleton_sublist _ _)).append
      (ite_singleton_sublist _ _)
  exact ⟨hsub, List.Nodup.sublist hsub (by decide)⟩

/-- Claim C9: totality over the documented domain — the message index
drawn from the random selector is always within the 3-element pool, and
in the non-max-level case of the progress computation the interpolation
denominator `next − previous` is non-zero (the previous level is
strictly below the next). -/
theorem claim_C9 (bestScore : ℕ) (s : UserStatistics) (q : ℚ)
    (h0 : 0 ≤ q) (h1 : q < 1) :
    Int.toNat ⌊q * ((messagesFor (messageLevel s.best_score)).length : ℚ)⌋ <
      (messagesFor (messageLevel s.best_score)).length ∧
    (∀ prev next p pn,
        getProgressToNextLevel bestScore =
          ProgressToNextLevel.progress prev next p pn →
        prev < next ∧ ((next : ℚ) - (prev : ℚ)) ≠ 0) := by
  constructor
  · rw [messagesFor_messageLevel, specTierPool_length]
    have := floor_mul_three_lt q h0 h1
    norm_num
    convert this using 3
  · intro prev next p pn h
    by_cases c1 : bestScore < 100
    · rw [getProgress_of_lt_100 _ c1] at h
      cases h
      norm_num
    · by_cases c2 : bestScore < 150
      · rw [getProgress_of_100_150 _ (by omega) c2] at h
        cases h
        norm_num
      · by_cases c3 : bestScore < 200
        · rw [getProgress_of_150_200 _ (by omega) c3] at h
          cases h
          norm_num
        · by_cases c4 : bestScore < 250
          · rw [getProgress_of_200_250 _ (by omega) c4] at h
            cases h
            norm_num
          · by_cases c5 : bestScore < 300
            · rw [getProgress_of_250_300 _ (by omega) c5] at h
              cases h
              norm_num
            · rw [getProgress_of_300_le _ (by omega)] at h
              exact absurd h (by simp)

theorem claim_C9_witness :
    (Int.toNat ⌊(0 : ℚ) * ((messagesFor (messageLevel
        (⟨0, 0, none, none, none⟩ : UserStatistics).best_score)).length :
          ℚ)⌋ <
      (messagesFor (messageLevel
        (⟨0, 0, none, none, none⟩ : UserStatistics).best_score)).length) ∧
    ((0 : ℕ) < 100 ∧ (((100 : ℕ) : ℚ) - ((0 : ℕ) : ℚ)) ≠ 0) :=
  ⟨(claim_C9 0 ⟨0, 0, none, none, none⟩ 0 (by norm_num) (by norm_num)).1,
   (claim_C9 0 ⟨0, 0, none, none, none⟩ 0 (by norm_num) (by norm_num)).2
     0 100 0 100
     (by rw [getProgress_of_lt_100 0 (by norm_num)]; norm_num)⟩

/-- Claim C10: for a fixed score, a strictly harder recognized
difficulty (easy < medium < hard < expert) never yields a strictly
better rating (Keep Trying < Average < Good < Excellent). -/
theorem claim_C10 (score : ℕ) (d1 d2 : String) (i1 i2 : ℕ)
    (h1 : difficultyOrder d1 = some i1) (h2 : difficultyOrder d2 = some i2)
    (hlt : i2 < i1) :
    ratingValue (getGamePerformance score d1).rating ≤
    ratingValue (getGamePerformance score d2).rating := by
  unfold difficultyOrder at h1 h2
  split_ifs at h1 h2 <;> subst_vars <;>
    simp only [Option.some.injEq] at h1 h2 <;> subst h1 <;> subst h2 <;>
      first
      | omega
      | (rw [getGamePerformance_of_found score "medium" ⟨220, 180, 140⟩ rfl,
          getGamePerformance_of_found score "easy" ⟨180, 140, 100⟩ rfl]
         exact ratingValue_anti score ⟨220, 180, 140⟩ ⟨180, 140, 100⟩
           (by decide) (by decide) (by decide))
      | (rw [getGamePerformance_of_found score "hard" ⟨280, 220, 180⟩ rfl,
          getGamePerformance_of_found score "easy" ⟨180, 140, 100⟩ rfl]
         exact ratingValue_anti score ⟨280, 220, 180⟩ ⟨180, 140, 100⟩
           (by decide) (by decide) (by decide))
      | (rw [getGamePerformance_of_found score "hard" ⟨280, 220, 180⟩ rfl,
          getGamePerformance_of_found score "medium" ⟨220, 180, 140⟩ rfl]
         exact ratingValue_anti score ⟨280, 220, 180⟩ ⟨220, 180, 140⟩
           (by decide) (by decide) (by decide))
      | (rw [getGamePerformance_of_found score "expert" ⟨350, 280, 220⟩ rfl,
          getGamePerformance_of_found score "easy" ⟨180, 140, 100⟩ rfl]
         exact ratingValue_anti score ⟨350, 280, 220⟩ ⟨180, 140, 100⟩
           (by decide) (by decide) (by decide))
      | (rw [getGamePerformance_of_found score "expert" ⟨350, 280, 220⟩ rfl,
          getGamePerformance_of_found score "medium" ⟨220, 180, 140⟩ rfl]
         exact ratingValue_anti score ⟨350, 280, 220⟩ ⟨220, 180, 140⟩
           (by decide) (by decide) (by decide))
      | (rw [getGamePerformance_of_found score "expert" ⟨350, 280, 220⟩ rfl,
          getGamePerformance_of_found score "hard" ⟨280, 220, 180⟩ rfl]
         exact ratingValue_anti score ⟨350, 280, 220⟩ ⟨280, 220, 180⟩
           (by decide) (by decide) (by decide))

theorem claim_C10_witness :
    difficultyOrder "expert" = some 3 ∧ difficultyOrder "easy" = some 0 ∧
    (0 : ℕ) < 3 ∧
    ratingValue (getGamePerformance 200 "expert").rating ≤
      ratingValue (getGamePerformance 200 "easy").rating :=
  ⟨rfl, rfl, by decide, claim_C10 200 "expert" "easy" 3 0 rfl rfl (by decide)⟩

end Memo
